import Mathlib

/-!
Verification development for `backend/app/services/report_data_service.py`
(the report-context aggregation engine of the repository).

The Python service is shallowly embedded here:

* decoded Python / JSON values are modelled by the inductive `PyVal`;
* `json.loads` is modelled by the executable recursive-descent parser
  `jsonLoads` (it covers the JSON fragment the service manipulates:
  null / booleans / integers / simple decimals / strings with the common
  escapes / arrays / objects; exponent notation and `\uXXXX` escapes are
  rejected, which no modelled data path exercises);
* the database rows (`Report`, `Project`, `Client`, `Finding`, `Evidence`)
  are structures mirroring the fields the service reads; `datetime` values
  appear only through `strftime`, so they are modelled as their formatted
  strings;
* the rich-text collaborator (`RichTextService`, whose source is not part
  of the service file) and the logo fetch / environment lookups are passed
  in explicitly, so every theorem below holds for every collaborator;
* Python `raise` / `try`-`except` behaviour is modelled with
  `Except String` and `Option`.
-/

namespace ReportData

/-- Model of a decoded Python/JSON value as manipulated by the service.
`float` carries an exact rational; the service's arithmetic is modelled
exactly over `ℚ` (the literal inputs checked below are exactly
representable, so the model and CPython agree on them). -/
inductive PyVal where
  | none : PyVal
  | bool (b : Bool) : PyVal
  | int (n : Int) : PyVal
  | float (q : ℚ) : PyVal
  | str (s : String) : PyVal
  | list (xs : List PyVal) : PyVal
  | dict (kvs : List (String × PyVal)) : PyVal

/-- Python truthiness (`if value:`) for the modelled values. -/
def pyTruthy : PyVal → Bool
  | .none => false
  | .bool b => b
  | .int n => n != 0
  | .float q => q != 0
  | .str s => s != ""
  | .list xs => !xs.isEmpty
  | .dict kvs => !kvs.isEmpty

/-- Python `len(value)`: defined for sized values, a `TypeError`
(modelled as `Option.none`) otherwise. -/
def pyLen : PyVal → Option Nat
  | .str s => some s.length
  | .list xs => some xs.length
  | .dict kvs => some kvs.length
  | _ => Option.none

/-- Python `str(value)` / f-string interpolation.  Exact for the scalar
values; containers get a placeholder rendering (the service only ever
interpolates scalars: `str(affected_assets_json)` is reached solely when
the value is a string, and asset `url`/`description` values in practice
are scalars). -/
def pyStr : PyVal → String
  | .none => "None"
  | .bool b => if b then "True" else "False"
  | .int n => toString n
  | .float q => toString q
  | .str s => s
  | .list _ => "<list>"
  | .dict _ => "<dict>"

/-- Python `dict.get(k, dflt)` on the modelled association list. -/
def dictGet (kvs : List (String × PyVal)) (k : String) (dflt : PyVal) : PyVal :=
  match kvs.find? (fun kv => kv.fst == k) with
  | some kv => kv.snd
  | Option.none => dflt

/-- Python `value or dflt` for an optional string field (`None` and the
empty string are both falsy). -/
def pyOrStr (o : Option String) (dflt : String) : String :=
  match o with
  | some s => if s = "" then dflt else s
  | Option.none => dflt

/-! ### A model of `json.loads` -/

/-- JSON insignificant whitespace. -/
def jsonWs (c : Char) : Bool :=
  c == ' ' || c == '\t' || c == '\n' || c == '\r'

/-- Skip leading whitespace. -/
def skipWs (l : List Char) : List Char := l.dropWhile jsonWs

/-- Parse the body of a JSON string (the opening quote already consumed),
handling the common escapes; `\uXXXX` and unknown escapes are rejected. -/
def parseStrBody : List Char → Option (String × List Char)
  | [] => Option.none
  | c :: cs =>
    if c = '"' then some ("", cs)
    else if c = '\\' then
      match cs with
      | d :: ds =>
        let esc : Option Char :=
          if d = '"' then some '"'
          else if d = '\\' then some '\\'
          else if d = '/' then some '/'
          else if d = 'n' then some '\n'
          else if d = 't' then some '\t'
          else if d = 'r' then some '\r'
          else Option.none
        match esc with
        | some e =>
          match parseStrBody ds with
          | some (s, rest) => some (⟨e :: s.data⟩, rest)
          | Option.none => Option.none
        | Option.none => Option.none
      | [] => Option.none
    else
      match parseStrBody cs with
      | some (s, rest) => some (⟨c :: s.data⟩, rest)
      | Option.none => Option.none

/-- Numeric value of a digit character. -/
def digitVal (c : Char) : Nat := c.toNat - '0'.toNat

/-- Consume a (possibly empty) run of digits, returning the accumulated
value, the number of digits consumed, and the rest. -/
def takeDigits (acc cnt : Nat) : List Char → Nat × Nat × List Char
  | d :: ds =>
    if d.isDigit then takeDigits (acc * 10 + digitVal d) (cnt + 1) ds
    else (acc, cnt, d :: ds)
  | [] => (acc, cnt, [])

/-- Parse a JSON number after the optional sign was consumed.  Integers
become `PyVal.int`, simple decimals become `PyVal.float`; exponent
notation is rejected. -/
def parseNumAux (neg : Bool) : List Char → Option (PyVal × List Char)
  | c :: cs =>
    if c.isDigit then
      match takeDigits (digitVal c) 1 cs with
      | (n, _, rest) =>
        match rest with
        | '.' :: d :: ds =>
          if d.isDigit then
            match takeDigits (digitVal d) 1 ds with
            | (fr, fcnt, rest2) =>
              match rest2 with
              | e :: _ =>
                if e = 'e' || e = 'E' then Option.none
                else
                  some (.float ((if neg then -1 else 1) *
                    ((n : ℚ) + (fr : ℚ) / (10 : ℚ) ^ fcnt)), rest2)
              | [] =>
                some (.float ((if neg then -1 else 1) *
                  ((n : ℚ) + (fr : ℚ) / (10 : ℚ) ^ fcnt)), [])
          else Option.none
        | e :: _ =>
          if e = 'e' || e = 'E' then Option.none
          else some (.int (if neg then -(n : Int) else (n : Int)), rest)
        | [] => some (.int (if neg then -(n : Int) else (n : Int)), [])
    else Option.none
  | [] => Option.none

mutual

/-- Parse one JSON value (fuel-indexed recursive descent). -/
def parseVal : Nat → List Char → Option (PyVal × List Char)
  | 0, _ => Option.none
  | fuel + 1, l =>
    match skipWs l with
    | [] => Option.none
    | c :: cs =>
      if c = '"' then
        match parseStrBody cs with
        | some (s, rest) => some (.str s, rest)
        | Option.none => Option.none
      else if c = '[' then
        match skipWs cs with
        | ']' :: rest => some (.list [], rest)
        | body => parseArrItems fuel body
      else if c = '{' then
        match skipWs cs with
        | '}' :: rest => some (.dict [], rest)
        | body => parseObjItems fuel body
      else if c = '-' then parseNumAux true cs
      else if c.isDigit then parseNumAux false (c :: cs)
      else if "true".data.isPrefixOf (c :: cs) then
        some (.bool true, (c :: cs).drop 4)
      else if "false".data.isPrefixOf (c :: cs) then
        some (.bool false, (c :: cs).drop 5)
      else if "null".data.isPrefixOf (c :: cs) then
        some (.none, (c :: cs).drop 4)
      else Option.none

/-- Parse the elements of a non-empty JSON array, positioned at an
element. -/
def parseArrItems : Nat → List Char → Option (PyVal × List Char)
  | 0, _ => Option.none
  | fuel + 1, l =>
    match parseVal fuel l with
    | some (v, rest) =>
      match skipWs rest with
      | ',' :: more =>
        match parseArrItems fuel more with
        | some (.list vs, rest2) => some (.list (v :: vs), rest2)
        | _ => Option.none
      | ']' :: rest2 => some (.list [v], rest2)
      | _ => Option.none
    | Option.none => Option.none

/-- Parse the members of a non-empty JSON object, positioned at a key. -/
def parseObjItems : Nat → List Char → Option (PyVal × List Char)
  | 0, _ => Option.none
  | fuel + 1, l =>
    match skipWs l with
    | '"' :: ks =>
      match parseStrBody ks with
      | some (k, rest) =>
        match skipWs rest with
        | ':' :: vs =>
          match parseVal fuel vs with
          | some (v, rest2) =>
            match skipWs rest2 with
            | ',' :: more =>
              match parseObjItems fuel more with
              | some (.dict kvs, rest3) => some (.dict ((k, v) :: kvs), rest3)
              | _ => Option.none
            | '}' :: rest3 => some (.dict [(k, v)], rest3)
            | _ => Option.none
          | Option.none => Option.none
        | _ => Option.none
      | Option.none => Option.none
    | _ => Option.none

end

/-- Model of Python's `json.loads`: parse one value and require only
whitespace to remain, as CPython does. -/
def jsonLoads (s : String) : Option PyVal :=
  match parseVal (s.length + 8) s.data with
  | some (v, rest) => if skipWs rest = [] then some v else Option.none
  | Option.none => Option.none

/-! ### String helpers used by the service

Python's `str` methods are modelled directly over the character list
(they agree with `upper`/`lower`/`strip`/`split`/`replace`/`startswith`/
`rstrip` on the data the service handles). -/

/-- Python `s.startswith(pre)`. -/
def pyStartsWith (s pre : String) : Bool := pre.data.isPrefixOf s.data

/-- Python `s.upper()`. -/
def pyUpper (s : String) : String := ⟨s.data.map Char.toUpper⟩

/-- Python `s.lower()`. -/
def pyLower (s : String) : String := ⟨s.data.map Char.toLower⟩

/-- Python `s.rstrip('/')`: remove every trailing `/`. -/
def rstripSlash (s : String) : String :=
  ⟨(s.data.reverse.dropWhile (fun c => c == '/')).reverse⟩

/-- Python `s.strip()`: trim whitespace from both ends. -/
def pyStrip (s : String) : String :=
  ⟨((s.data.dropWhile Char.isWhitespace).reverse.dropWhile
      Char.isWhitespace).reverse⟩

/-- Python `s.split(',')` (empty segments kept) on a character list. -/
def splitComma : List Char → List (List Char)
  | [] => [[]]
  | c :: cs =>
    if c = ',' then [] :: splitComma cs
    else
      match splitComma cs with
      | seg :: rest => (c :: seg) :: rest
      | [] => [[c]]

/-- `[s.strip() for s in raw.split(',') if s.strip()]` — the comma split
with stripping and dropping of empty segments used by both legacy
fallbacks. -/
def splitCommaStrip (s : String) : List String :=
  ((splitComma s.data).map (fun l => pyStrip ⟨l⟩)).filter (fun t => t ≠ "")

/-- The scope fallback (line 324): `replace('\n', ',')` then split on
commas, strip, and drop empties. -/
def splitScopeLegacy (s : String) : List String :=
  splitCommaStrip ⟨s.data.map (fun c => if c = '\n' then ',' else c)⟩

/-! ### Severity machinery

`severity_rank` (build_context lines 214-220) and the sort key of
line 224: `severity_rank.get((x.severity or "").upper(), 99)`. -/

/-- The explicit `severity_rank` map, with the `.get(..., 99)` default. -/
def severityRank (s : String) : Nat :=
  if s = "CRITICAL" then 1
  else if s = "HIGH" then 2
  else if s = "MEDIUM" then 3
  else if s = "LOW" then 4
  else if s = "INFO" then 5
  else 99

/-- `SEVERITY_COLORS.get(severity, '#6B7280')`. -/
def severityColor (s : String) : String :=
  if s = "CRITICAL" then "#DC2626"
  else if s = "HIGH" then "#EA580C"
  else if s = "MEDIUM" then "#CA8A04"
  else if s = "LOW" then "#2563EB"
  else if s = "INFO" then "#6B7280"
  else if s = "INFORMATIONAL" then "#6B7280"
  else "#6B7280"

/-! ### The database rows read by the service -/

/-- An evidence row (`finding.evidences` elements): the service reads
`id`, `filename`, `filepath`, `caption`, `mimetype`. -/
structure Evidence where
  id : String
  filename : String
  filepath : String
  caption : Option String
  mimetype : String

/-- A finding row.  `createdAt`/`updatedAt` are `datetime`s in Python and
are read only through `strftime`, so they are modelled as the formatted
strings.  Fields the service decodes defensively (`affectedAssetsJson`,
`references`) are modelled as `PyVal` since historical rows hold
different shapes. -/
structure Finding where
  id : String
  referenceId : Option String
  title : String
  severity : Option String
  cvssScore : Option ℚ
  cvssVector : Option String
  cveId : Option String
  status : String
  description : Option String
  remediation : Option String
  evidence : Option String
  affectedSystems : Option String
  affectedAssetsJson : PyVal
  affectedAssetsCount : Option Nat
  references : PyVal
  evidences : List Evidence
  createdAt : String
  updatedAt : String

/-- The sort key of build_context line 224. -/
def findingRank (f : Finding) : Nat :=
  severityRank (pyUpper (f.severity.getD ""))

/-- A client row. -/
structure Client where
  id : String
  name : String
  contactName : Option String
  contactEmail : Option String
  contactPhone : Option String
  address : Option String
  industry : Option String
  websiteUrl : Option String
  primaryColor : Option String

/-- A project row; `scope` and `complianceFrameworks` are persisted
polymorphically, hence `PyVal`; dates modelled as formatted strings. -/
structure Project where
  id : String
  name : String
  description : Option String
  projectType : Option String
  status : String
  startDate : Option String
  endDate : Option String
  methodology : Option String
  scope : PyVal
  complianceFrameworks : PyVal
  client : Client
  findings : List Finding

/-- The `generatedBy` user row: `name or email` is read. -/
structure UserRec where
  name : Option String
  email : String

/-- A report row together with its included relations, as returned by the
aggregate fetch of build_context lines 184-204.  `htmlContent` is an
optional text column; `""` models the absent/empty (falsy) value. -/
structure Report where
  id : String
  title : String
  reportType : String
  status : String
  htmlContent : String
  generatedBy : UserRec
  project : Project

/-! ### The stable sort of build_context line 224

Python's `list.sort(key=...)` is a stable sort by the key; it is modelled
by a stable insertion sort keyed by a `Nat`-valued function. -/

/-- Stable insertion of `x` into `l`: `x` goes before the first element
whose key is not smaller (so earlier-inserted equal keys stay behind). -/
def insertKeyed (key : α → Nat) (x : α) : List α → List α
  | [] => [x]
  | y :: ys =>
    if key x ≤ key y then x :: y :: ys else y :: insertKeyed key x ys

/-- Stable sort by a `Nat` key (model of `list.sort(key=...)`). -/
def sortKeyed (key : α → Nat) : List α → List α
  | [] => []
  | x :: xs => insertKeyed key x (sortKeyed key xs)

/-- `findings.sort(key=lambda x: severity_rank.get((x.severity or "").upper(), 99))`. -/
def sortFindings (l : List Finding) : List Finding := sortKeyed findingRank l

theorem insertKeyed_perm (key : α → Nat) (x : α) (l : List α) :
    List.Perm (insertKeyed key x l) (x :: l) := by
  induction l with
  | nil => simp [insertKeyed]
  | cons y ys ih =>
    by_cases h : key x ≤ key y
    · simp [insertKeyed, h]
    · simp only [insertKeyed, h, if_neg, ite_false]
      exact (ih.cons y).trans (List.Perm.swap x y ys)

theorem sortKeyed_perm (key : α → Nat) (l : List α) :
    List.Perm (sortKeyed key l) l := by
  induction l with
  | nil => simp [sortKeyed]
  | cons x xs ih =>
    exact (insertKeyed_perm key x (sortKeyed key xs)).trans (ih.cons x)

theorem insertKeyed_pairwise (key : α → Nat) (x : α) (l : List α)
    (h : l.Pairwise (fun a b => key a ≤ key b)) :
    (insertKeyed key x l).Pairwise (fun a b => key a ≤ key b) := by
  induction l with
  | nil => simp [insertKeyed]
  | cons y ys ih =>
    rcases List.pairwise_cons.mp h with ⟨hy, hys⟩
    rw [insertKeyed]
    by_cases hxy : key x ≤ key y
    · rw [if_pos hxy]
      refine List.pairwise_cons.mpr ⟨?_, h⟩
      intro b hb
      rcases List.mem_cons.mp hb with rfl | hb'
      · exact hxy
      · exact le_trans hxy (hy b hb')
    · rw [if_neg hxy]
      refine List.pairwise_cons.mpr ⟨?_, ih hys⟩
      intro b hb
      have hb' := (insertKeyed_perm key x ys).mem_iff.mp hb
      rcases List.mem_cons.mp hb' with rfl | hb''
      · exact Nat.le_of_not_le hxy
      · exact hy b hb''

theorem sortKeyed_pairwise (key : α → Nat) (l : List α) :
    (sortKeyed key l).Pairwise (fun a b => key a ≤ key b) := by
  induction l with
  | nil => simp [sortKeyed]
  | cons x xs ih => exact insertKeyed_pairwise key x _ ih

theorem insertKeyed_filter (key : α → Nat) (x : α) (l : List α) (n : Nat) :
    (insertKeyed key x l).filter (fun a => key a == n) =
      if key x = n then x :: l.filter (fun a => key a == n)
      else l.filter (fun a => key a == n) := by
  induction l with
  | nil =>
    by_cases h : key x = n <;> simp [insertKeyed, List.filter_cons, h]
  | cons y ys ih =>
    rw [insertKeyed]
    by_cases hxy : key x ≤ key y
    · rw [if_pos hxy]
      by_cases h : key x = n <;> simp [List.filter_cons, h]
    · rw [if_neg hxy, List.filter_cons, ih]
      have hlt : key y < key x := Nat.lt_of_not_le hxy
      by_cases hy : key y = n
      · have hx : ¬ key x = n := by omega
        simp [List.filter_cons, hy, hx]
      · by_cases h : key x = n <;> simp [List.filter_cons, hy, h]

/-- Stability of the modelled sort: for every key value, the subsequence
of elements with that key is unchanged (original relative order kept). -/
theorem sortKeyed_filter (key : α → Nat) (l : List α) (n : Nat) :
    (sortKeyed key l).filter (fun a => key a == n) =
      l.filter (fun a => key a == n) := by
  induction l with
  | nil => simp [sortKeyed]
  | cons x xs ih =>
    rw [sortKeyed, insertKeyed_filter key x (sortKeyed key xs) n, ih]
    by_cases h : key x = n <;> simp [List.filter_cons, h]

/-! ### `_calculate_stats` (lines 488-546) -/

/-- Python's `round(q, 1)` (round half to even) computed exactly on `ℚ`. -/
def pyRound1 (q : ℚ) : ℚ :=
  let t := q * 10
  let f : ℤ := ⌊t⌋
  let r := t - f
  let n : ℤ :=
    if r < 1 / 2 then f
    else if 1 / 2 < r then f + 1
    else if f % 2 = 0 then f else f + 1
  (n : ℚ) / 10

/-- The severity bucket key of the stats loop (lines 501-504):
`f.severity.upper() if f.severity else 'MEDIUM'`, then
`INFORMATIONAL` folded into `INFO`. -/
def statsKey (f : Finding) : String :=
  match f.severity with
  | some s =>
    if s = "" then "MEDIUM"
    else if pyUpper s = "INFORMATIONAL" then "INFO" else pyUpper s
  | Option.none => "MEDIUM"

/-- `counts[k]` after the loop: the number of findings whose bucket key
is `k` (only the five canonical keys are ever queried). -/
def countKey (l : List Finding) (k : String) : Nat :=
  (l.filter (fun f => statsKey f == k)).length

/-- `weighted_sum` (lines 513-516): the five bucket counts times the
`SEVERITY_WEIGHTS` entries `CRITICAL:10, HIGH:7, MEDIUM:4, LOW:1, INFO:0`. -/
def weightedSum (l : List Finding) : Nat :=
  countKey l "CRITICAL" * 10 + countKey l "HIGH" * 7 +
    countKey l "MEDIUM" * 4 + countKey l "LOW" * 1 + countKey l "INFO" * 0

/-- The percentage helper `pct` (lines 509-510). -/
def pct (total count : Nat) : ℚ :=
  pyRound1 (if 0 < total then (count : ℚ) / (total : ℚ) * 100 else 0)

/-- `risk_score` (lines 517-518): `max_possible = total * 10`. -/
def riskScore (l : List Finding) : ℚ :=
  let maxPossible := l.length * 10
  pyRound1 (if 0 < maxPossible then
    (weightedSum l : ℚ) / (maxPossible : ℚ) * 100 else 0)

/-- `risk_level` (lines 521-528): the if/elif chain, first match wins. -/
def riskLevel (l : List Finding) : String :=
  if 0 < countKey l "CRITICAL" ∨ 70 ≤ riskScore l then "Critical"
  else if 0 < countKey l "HIGH" ∨ 50 ≤ riskScore l then "High"
  else if 0 < countKey l "MEDIUM" ∨ 25 ≤ riskScore l then "Medium"
  else "Low"

/-- The `ReportStats` dataclass. -/
structure ReportStats where
  total_findings : Nat
  critical_count : Nat
  high_count : Nat
  medium_count : Nat
  low_count : Nat
  info_count : Nat
  critical_percent : ℚ
  high_percent : ℚ
  medium_percent : ℚ
  low_percent : ℚ
  info_percent : ℚ
  risk_score : ℚ
  risk_level : String

/-- `_calculate_stats(findings)` (lines 488-546). -/
def calculateStats (l : List Finding) : ReportStats :=
  { total_findings := l.length
    critical_count := countKey l "CRITICAL"
    high_count := countKey l "HIGH"
    medium_count := countKey l "MEDIUM"
    low_count := countKey l "LOW"
    info_count := countKey l "INFO"
    critical_percent := pct l.length (countKey l "CRITICAL")
    high_percent := pct l.length (countKey l "HIGH")
    medium_percent := pct l.length (countKey l "MEDIUM")
    low_percent := pct l.length (countKey l "LOW")
    info_percent := pct l.length (countKey l "INFO")
    risk_score := riskScore l
    risk_level := riskLevel l }

/-! ### `_build_project_context` (lines 313-348): list-field decoding -/

/-- The `scope` decoding (lines 317-324): falsy gives `[]`; a string is
`json.loads`-decoded, a decode failure falling back to the
newline-then-comma legacy split; any other truthy value is kept as-is.
Note the code keeps whatever `json.loads` returns, list or not. -/
def normalizeScope (raw : PyVal) : PyVal :=
  if pyTruthy raw then
    match raw with
    | .str s =>
      match jsonLoads s with
      | some v => v
      | Option.none => .list ((splitScopeLegacy s).map .str)
    | v => v
  else .list []

/-- The `compliance_frameworks` decoding (lines 327-333): same shape, but
the legacy fallback splits on commas only (no newline replacement). -/
def normalizeCompliance (raw : PyVal) : PyVal :=
  if pyTruthy raw then
    match raw with
    | .str s =>
      match jsonLoads s with
      | some v => v
      | Option.none => .list ((splitCommaStrip s).map .str)
    | v => v
  else .list []

/-- The `ProjectContext` dataclass; `scope`/`compliance_frameworks` are
declared `list[str]` in Python but can hold whatever was decoded. -/
structure ProjectContext where
  id : String
  name : String
  description : Option String
  description_html : String
  description_plain : String
  project_type : Option String
  status : String
  start_date : Option String
  end_date : Option String
  methodology : Option String
  scope : PyVal
  compliance_frameworks : PyVal

/-! ### Evidence URL resolution (`_build_finding_context`, lines 406-447) -/

/-- The "logic switch" of lines 432-442: `startswith("http")` is used
verbatim, a leading `/` is prepended with the rstripped base, anything
else passes through. -/
def resolveUrl (baseUrl rawUrl : String) : String :=
  if pyStartsWith rawUrl "http" then rawUrl
  else if pyStartsWith rawUrl "/" then rstripSlash baseUrl ++ rawUrl
  else rawUrl

/-- A resolved `{url, caption}` evidence item. -/
structure EvidenceItem where
  url : String
  caption : String

/-- One iteration of the evidence loop for a stored evidence row (the
rows of `finding.evidences` always expose `filepath`, so the string and
ad-hoc-object branches of lines 423-429 are not reachable for them):
`raw_url = item.filepath`, `caption = item.caption or "Evidence"`. -/
def resolveEvidence (baseUrl : String) (e : Evidence) : EvidenceItem :=
  { url := resolveUrl baseUrl e.filepath
    caption := pyOrStr e.caption "Evidence" }

/-! ### `_build_finding_context` (lines 350-485) -/

/-- The rich-text collaborator boundary (`RichTextService`): its source
is outside the service file; per the spec it exposes total
`to_html`/`to_plain`/`sanitize_html`.  All theorems below hold for every
such collaborator. -/
structure RichText where
  to_html : PyVal → String
  to_plain : PyVal → String
  sanitize_html : String → String

/-- The collaborators and environment of one `build_context` call:
rich-text adapter, best-effort logo fetcher (`_fetch_logo_as_base64`,
a network call), the `BACKEND_URL` value (default
`http://localhost:8000`), and `datetime.now().strftime("%B %d, %Y")`. -/
structure Env where
  rich : RichText
  logoFetch : String → Option String
  baseUrl : String
  nowStr : String

/-- `finding.severity.upper() if finding.severity else 'MEDIUM'`
(line 353; no `INFORMATIONAL` folding here, unlike the stats loop). -/
def ctxSeverity (sev : Option String) : String :=
  match sev with
  | some s => if s = "" then "MEDIUM" else pyUpper s
  | Option.none => "MEDIUM"

/-- `references` decoding (lines 356-361): falsy gives `[]`; a string is
JSON-decoded, a failed decode wrapping the raw value in a singleton; any
other truthy value is kept as-is. -/
def normalizeReferences (raw : PyVal) : PyVal :=
  if pyTruthy raw then
    match raw with
    | .str s =>
      match jsonLoads s with
      | some v => v
      | Option.none => .list [.str s]
    | v => v
  else .list []

/-- One `<li>` of the affected-assets HTML (lines 375-385): dict entries
use `url`/`description` (skipped when `url` is falsy), strings are taken
as-is, other shapes are skipped. -/
def assetLi : PyVal → Option String
  | .dict m =>
    let url := dictGet m "url" (.str "")
    let desc := dictGet m "description" (.str "")
    if pyTruthy url then
      if pyTruthy desc then
        some ("<li><strong>" ++ pyStr url ++ "</strong> - " ++ pyStr desc ++ "</li>")
      else some ("<li>" ++ pyStr url ++ "</li>")
    else Option.none
  | .str t => some ("<li>" ++ t ++ "</li>")
  | _ => Option.none

/-- Affected-assets decoding (lines 365-390), producing the
`affected_assets_html` string and the decoded `affected_assets_list`
value (whatever `json.loads` returned; `.list []` when the field is
falsy or its decode failed, mirroring the initialisation of line 367). -/
def affectedAssets (rich : RichText) (raw : PyVal) : String × PyVal :=
  if pyTruthy raw then
    match raw with
    | .str s =>
      match jsonLoads s with
      | some v =>
        match v with
        | .list xs =>
          if xs.isEmpty then ("", .list xs)
          else
            let items := xs.filterMap assetLi
            (if items.isEmpty then "" else "<ul>" ++ String.join items ++ "</ul>",
             .list xs)
        | other => ("", other)
      | Option.none => (rich.to_html (.str s), .list [])
    | .list xs =>
      if xs.isEmpty then ("", .list xs)
      else
        let items := xs.filterMap assetLi
        (if items.isEmpty then "" else "<ul>" ++ String.join items ++ "</ul>",
         .list xs)
    | other => ("", other)
  else ("", .list [])

/-- `finding.affectedAssetsCount or len(affected_assets_list)`
(line 477): a falsy stored count falls back to `len` of the decoded
value, which raises `TypeError` when that value has no length (e.g. a
JSON scalar). -/
def assetsCount (stored : Option Nat) (assetsList : PyVal) : Except String Nat :=
  match stored with
  | some n =>
    if n ≠ 0 then .ok n
    else
      match pyLen assetsList with
      | some k => .ok k
      | Option.none => .error "TypeError: object has no len()"
  | Option.none =>
    match pyLen assetsList with
    | some k => .ok k
    | Option.none => .error "TypeError: object has no len()"

/-- `f"FIND-{index:03d}"` for a 1-based index. -/
def findCode (index : Nat) : String :=
  "FIND-" ++ (if index < 10 then "00" ++ toString index
              else if index < 100 then "0" ++ toString index
              else toString index)

/-- The `FindingContext` dataclass. -/
structure FindingContext where
  id : String
  reference_id : String
  title : String
  severity : String
  severity_color : String
  cvss_score : Option ℚ
  cvss_vector : String
  cve_id : Option String
  status : String
  description_html : String
  description_plain : String
  remediation_html : String
  remediation_plain : String
  evidence_html : String
  evidence_plain : String
  affected_systems : Option String
  affected_assets_json : PyVal
  affected_assets_html : String
  affected_assets_count : Nat
  references : PyVal
  evidence_count : Nat
  evidences : List Evidence
  evidence_items : List EvidenceItem
  created_at : String
  updated_at : String

/-- `_build_finding_context(finding, index)` (lines 350-485).  Every
decode failure is absorbed locally except the `len()` of line 477, which
can raise `TypeError` on a non-sized decoded assets value — hence the
`Except`. -/
def buildFindingContext (env : Env) (index : Nat) (f : Finding) :
    Except String FindingContext :=
  let severity := ctxSeverity f.severity
  let references := normalizeReferences f.references
  let assets := affectedAssets env.rich f.affectedAssetsJson
  let formatted := f.evidences.map (resolveEvidence env.baseUrl)
  match assetsCount f.affectedAssetsCount assets.2 with
  | .error e => .error e
  | .ok cnt =>
    .ok
      { id := f.id
        reference_id := pyOrStr f.referenceId (findCode index)
        title := f.title
        severity := severity
        severity_color := severityColor severity
        cvss_score := f.cvssScore
        cvss_vector := pyOrStr f.cvssVector "N/A"
        cve_id := f.cveId
        status := f.status
        description_html := env.rich.to_html (.str (f.description.getD ""))
        description_plain := env.rich.to_plain (.str (f.description.getD ""))
        remediation_html := env.rich.to_html (.str (f.remediation.getD ""))
        remediation_plain := env.rich.to_plain (.str (f.remediation.getD ""))
        evidence_html := env.rich.to_html (.str (f.evidence.getD ""))
        evidence_plain := env.rich.to_plain (.str (f.evidence.getD ""))
        affected_systems := f.affectedSystems
        affected_assets_json := f.affectedAssetsJson
        affected_assets_html := assets.1
        affected_assets_count := cnt
        references := references
        evidence_count := f.evidences.length
        evidences := f.evidences
        evidence_items := formatted
        created_at := f.createdAt
        updated_at := f.updatedAt }

/-! ### Client, narrative, grouping, and `build_context` itself -/

/-- The `ClientContext` dataclass. -/
structure ClientContext where
  id : String
  name : String
  contact_name : Option String
  contact_email : Option String
  contact_phone : Option String
  address : Option String
  industry : Option String
  logo_url : Option String
  logo_base64 : Option String
  primary_color : String

/-- `_build_client_context` (lines 288-311); the logo fetch is the
injected best-effort network collaborator. -/
def buildClientContext (env : Env) (c : Client) : ClientContext :=
  { id := c.id
    name := c.name
    contact_name := c.contactName
    contact_email := c.contactEmail
    contact_phone := c.contactPhone
    address := c.address
    industry := c.industry
    logo_url := c.websiteUrl
    logo_base64 :=
      match c.websiteUrl with
      | some u => if u ≠ "" then env.logoFetch u else Option.none
      | Option.none => Option.none
    primary_color := pyOrStr c.primaryColor "#10b981" }

/-- `_build_project_context` (lines 313-348). -/
def buildProjectContext (env : Env) (p : Project) : ProjectContext :=
  { id := p.id
    name := p.name
    description := p.description
    description_html := env.rich.to_html (.str (p.description.getD ""))
    description_plain := env.rich.to_plain (.str (p.description.getD ""))
    project_type := p.projectType
    status := p.status
    start_date := p.startDate
    end_date := p.endDate
    methodology := p.methodology
    scope := normalizeScope p.scope
    compliance_frameworks := normalizeCompliance p.complianceFrameworks }

/-- The executive-summary parsing of build_context lines 246-263: a
falsy payload leaves both forms empty; a payload decoding to a mapping
renders its `executiveSummary` value through the adapter (empty when the
key is missing or falsy); every other case — invalid JSON, or a decode
whose `.get` would raise — falls back to sanitizing/rendering the raw
payload wholesale. -/
def parseNarrative (rich : RichText) (htmlContent : String) : String × String :=
  if htmlContent = "" then ("", "")
  else
    match jsonLoads htmlContent with
    | some (.dict m) =>
      let es := dictGet m "executiveSummary" (.str "")
      ((if pyTruthy es then rich.to_html es else ""),
       (if pyTruthy es then rich.to_plain es else ""))
    | _ => (rich.sanitize_html htmlContent, rich.to_plain (.str htmlContent))

/-- The `findings_by_severity` dict (fixed five keys). -/
structure GroupedFindings where
  critical : List FindingContext
  high : List FindingContext
  medium : List FindingContext
  low : List FindingContext
  info : List FindingContext

/-- The grouping key of lines 560-562: `severity.lower()`, with
`informational` folded into `info`. -/
def groupKey (c : FindingContext) : String :=
  let k := pyLower c.severity
  if k = "informational" then "info" else k

/-- `_group_findings_by_severity` (lines 548-566): the append loop fills
each bucket, in input order, with the contexts whose key matches —
findings with an unrecognised key are silently dropped. -/
def groupFindingsBySeverity (cs : List FindingContext) : GroupedFindings :=
  { critical := cs.filter (fun c => groupKey c == "critical")
    high := cs.filter (fun c => groupKey c == "high")
    medium := cs.filter (fun c => groupKey c == "medium")
    low := cs.filter (fun c => groupKey c == "low")
    info := cs.filter (fun c => groupKey c == "info") }

/-- The buckets concatenated in the fixed order
`[critical, high, medium, low, info]`. -/
def groupedConcat (g : GroupedFindings) : List FindingContext :=
  g.critical ++ g.high ++ g.medium ++ g.low ++ g.info

/-- The `ReportContext` dataclass. -/
structure ReportContext where
  report_id : String
  report_title : String
  report_type : String
  report_status : String
  generated_at : String
  generated_by : String
  client : ClientContext
  project : ProjectContext
  findings : List FindingContext
  stats : ReportStats
  executive_summary_html : String
  executive_summary_plain : String
  classification : String
  version : String
  findings_by_severity : GroupedFindings

/-- The per-finding loop of lines 233-236: 1-based enumeration of the
sorted findings; Python's list comprehension propagates the first raised
exception, modelled by `mapM` over `Except`. -/
def buildFindingContexts (env : Env) (sorted : List Finding) :
    Except String (List FindingContext) :=
  sorted.enum.mapM (fun p => buildFindingContext env (p.1 + 1) p.2)

/-- `build_context(report_id)` (lines 167-286).  The aggregate fetch is
the injected `fetched`; an absent report raises
`ValueError("Report not found: ...")`. -/
def buildContext (env : Env) (reportId : String) (fetched : Option Report) :
    Except String ReportContext :=
  match fetched with
  | Option.none => .error ("Report not found: " ++ reportId)
  | some report =>
    let sorted := sortFindings report.project.findings
    let clientCtx := buildClientContext env report.project.client
    let projectCtx := buildProjectContext env report.project
    match buildFindingContexts env sorted with
    | .error e => .error e
    | .ok findingsCtx =>
      let stats := calculateStats sorted
      let grouped := groupFindingsBySeverity findingsCtx
      let narrative := parseNarrative env.rich report.htmlContent
      .ok
        { report_id := report.id
          report_title := report.title
          report_type := report.reportType
          report_status := report.status
          generated_at := env.nowStr
          generated_by := pyOrStr report.generatedBy.name report.generatedBy.email
          client := clientCtx
          project := projectCtx
          findings := findingsCtx
          stats := stats
          executive_summary_html := narrative.1
          executive_summary_plain := narrative.2
          classification := "CONFIDENTIAL"
          version := "1.0"
          findings_by_severity := grouped }

/-! ### Concrete fixtures (used by witnesses and counterexamples) -/

/-- A concrete rich-text collaborator instance for closed evaluations. -/
def testRich : RichText :=
  { to_html := pyStr, to_plain := pyStr, sanitize_html := fun s => s }

/-- A concrete environment for closed evaluations. -/
def testEnv : Env :=
  { rich := testRich, logoFetch := fun _ => Option.none,
    baseUrl := "http://localhost:8000", nowStr := "January 01, 2026" }

/-- A minimal finding row with the given id and severity. -/
def testFinding (id : String) (sev : Option String) : Finding :=
  { id := id, referenceId := Option.none, title := "t", severity := sev,
    cvssScore := Option.none, cvssVector := Option.none, cveId := Option.none,
    status := "OPEN", description := Option.none, remediation := Option.none,
    evidence := Option.none, affectedSystems := Option.none,
    affectedAssetsJson := PyVal.none, affectedAssetsCount := Option.none,
    references := PyVal.none, evidences := [], createdAt := "d", updatedAt := "d" }

/-- A minimal client row. -/
def testClient : Client :=
  { id := "c", name := "Acme", contactName := Option.none,
    contactEmail := Option.none, contactPhone := Option.none,
    address := Option.none, industry := Option.none,
    websiteUrl := Option.none, primaryColor := Option.none }

/-- A minimal project row holding the given findings. -/
def testProject (fs : List Finding) : Project :=
  { id := "p", name := "Proj", description := Option.none,
    projectType := Option.none, status := "ACTIVE", startDate := Option.none,
    endDate := Option.none, methodology := Option.none, scope := PyVal.none,
    complianceFrameworks := PyVal.none, client := testClient, findings := fs }

/-- A minimal report row holding the given findings. -/
def testReport (fs : List Finding) : Report :=
  { id := "r1", title := "T", reportType := "PENTEST", status := "DRAFT",
    htmlContent := "", generatedBy := { name := some "A", email := "a@x" },
    project := testProject fs }

/-- A finding whose `affectedAssetsJson` is the JSON scalar `"5"` and
whose stored asset count is absent: `json.loads` yields the integer `5`,
and line 477 then evaluates `len(5)`. -/
def badAssetsFinding : Finding :=
  { testFinding "f1" (some "HIGH") with affectedAssetsJson := PyVal.str "5" }

/-- The literal finding set `{HIGH, LOW, LOW, INFO}` of the spec's risk
boundary scenario. -/
def exampleFindings : List Finding :=
  [testFinding "h" (some "HIGH"), testFinding "l1" (some "LOW"),
   testFinding "l2" (some "LOW"), testFinding "i" (some "INFO")]

/-- A minimal finding context with the given id and (already uppercased)
severity, as `_build_finding_context` would shape it. -/
def testCtx (id sev : String) : FindingContext :=
  { id := id, reference_id := "FIND-001", title := "t", severity := sev,
    severity_color := severityColor sev, cvss_score := Option.none,
    cvss_vector := "N/A", cve_id := Option.none, status := "OPEN",
    description_html := "", description_plain := "", remediation_html := "",
    remediation_plain := "", evidence_html := "", evidence_plain := "",
    affected_systems := Option.none, affected_assets_json := PyVal.none,
    affected_assets_html := "", affected_assets_count := 0,
    references := PyVal.list [], evidence_count := 0, evidences := [],
    evidence_items := [], created_at := "d", updated_at := "d" }

/-! ### Shared helper lemmas -/

/-- `pyRound1` at an argument that is exactly `z/10`. -/
theorem pyRound1_eq_of_int (q : ℚ) (z : ℤ) (h : q * 10 = (z : ℚ)) :
    pyRound1 q = (z : ℚ) / 10 := by
  unfold pyRound1
  rw [h]
  norm_num

/-- Counting one more finding: `countKey` over a cons. -/
theorem countKey_cons (f : Finding) (fs : List Finding) (k : String) :
    countKey (f :: fs) k =
      (if statsKey f = k then 1 else 0) + countKey fs k := by
  simp only [countKey, List.filter_cons]
  by_cases h : statsKey f = k <;> simp [h, Nat.add_comm]

/-- Whether a bucket key is one of the five canonical counters. -/
def isCanonicalKey (s : String) : Bool :=
  s == "CRITICAL" || s == "HIGH" || s == "MEDIUM" || s == "LOW" || s == "INFO"

/-- The five bucket counts partition the findings whose key is canonical:
their sum plus the number of unrecognised-key findings is the total. -/
theorem countKey_partition (l : List Finding) :
    countKey l "CRITICAL" + countKey l "HIGH" + countKey l "MEDIUM" +
      countKey l "LOW" + countKey l "INFO" +
      (l.filter (fun f => !(isCanonicalKey (statsKey f)))).length = l.length := by
  induction l with
  | nil => rfl
  | cons f fs ih =>
    simp only [countKey_cons, List.filter_cons, List.length_cons]
    by_cases h1 : statsKey f = "CRITICAL"
    · have hb : isCanonicalKey "CRITICAL" = true := rfl
      simp [h1, hb]; omega
    · by_cases h2 : statsKey f = "HIGH"
      · have hb : isCanonicalKey "HIGH" = true := rfl
        simp [h1, h2, hb]; omega
      · by_cases h3 : statsKey f = "MEDIUM"
        · have hb : isCanonicalKey "MEDIUM" = true := rfl
          simp [h1, h2, h3, hb]; omega
        · by_cases h4 : statsKey f = "LOW"
          · have hb : isCanonicalKey "LOW" = true := rfl
            simp [h1, h2, h3, h4, hb]; omega
          · by_cases h5 : statsKey f = "INFO"
            · have hb : isCanonicalKey "INFO" = true := rfl
              simp [h1, h2, h3, h4, h5, hb]; omega
            · have hb : (!isCanonicalKey (statsKey f)) = true := by
                simp [isCanonicalKey, h1, h2, h3, h4, h5]
              simp [hb, h1, h2, h3, h4, h5]; omega

/-- A filter by a key value below every key in the list is empty. -/
theorem filter_eq_nil_of_lt (key : α → Nat) (m : List α) (n : Nat)
    (h : ∀ y ∈ m, n < key y) : m.filter (fun a => key a == n) = [] := by
  induction m with
  | nil => rfl
  | cons y ys ih =>
    rw [List.filter_cons]
    have hy : ¬ (key y = n) := by
      have := h y (List.mem_cons_self y ys)
      omega
    simp only [beq_iff_eq, hy, if_false]
    exact ih (fun z hz => h z (List.mem_cons_of_mem y hz))

/-- A rank-sorted list whose ranks all lie in `1..5` is recovered by
concatenating its rank-filtered sublists in rank order. -/
theorem concat_filters_of_sorted (key : α → Nat) (cs : List α)
    (hs : cs.Pairwise (fun a b => key a ≤ key b))
    (hm : ∀ c ∈ cs, 1 ≤ key c ∧ key c ≤ 5) :
    cs.filter (fun a => key a == 1) ++ cs.filter (fun a => key a == 2) ++
      cs.filter (fun a => key a == 3) ++ cs.filter (fun a => key a == 4) ++
      cs.filter (fun a => key a == 5) = cs := by
  induction cs with
  | nil => rfl
  | cons c cs ih =>
    rcases List.pairwise_cons.mp hs with ⟨hc, hs2⟩
    have hm2 : ∀ x ∈ cs, 1 ≤ key x ∧ key x ≤ 5 :=
      fun x hx => hm x (List.mem_cons_of_mem c hx)
    have ihe := ih hs2 hm2
    obtain ⟨hk1, hk5⟩ := hm c (List.mem_cons_self c cs)
    have hnil : ∀ n, n < key c → cs.filter (fun a => key a == n) = [] :=
      fun n hn =>
        filter_eq_nil_of_lt key cs n (fun y hy => lt_of_lt_of_le hn (hc y hy))
    have hcases : key c = 1 ∨ key c = 2 ∨ key c = 3 ∨ key c = 4 ∨ key c = 5 := by
      omega
    rcases hcases with hk | hk | hk | hk | hk
    · have g1 : (c :: cs).filter (fun a => key a == 1) =
          c :: cs.filter (fun a => key a == 1) := by
        simp [List.filter_cons, hk]
      have g2 : (c :: cs).filter (fun a => key a == 2) =
          cs.filter (fun a => key a == 2) := by simp [List.filter_cons, hk]
      have g3 : (c :: cs).filter (fun a => key a == 3) =
          cs.filter (fun a => key a == 3) := by simp [List.filter_cons, hk]
      have g4 : (c :: cs).filter (fun a => key a == 4) =
          cs.filter (fun a => key a == 4) := by simp [List.filter_cons, hk]
      have g5 : (c :: cs).filter (fun a => key a == 5) =
          cs.filter (fun a => key a == 5) := by simp [List.filter_cons, hk]
      rw [g1, g2, g3, g4, g5]
      simp only [List.cons_append]
      rw [ihe]
    · have g1 : (c :: cs).filter (fun a => key a == 1) = [] := by
        rw [List.filter_cons,
          if_neg (by simp [hk] : ¬ ((key c == 1) = true))]
        exact hnil 1 (by omega)
      have g2 : (c :: cs).filter (fun a => key a == 2) =
          c :: cs.filter (fun a => key a == 2) := by simp [List.filter_cons, hk]
      have g3 : (c :: cs).filter (fun a => key a == 3) =
          cs.filter (fun a => key a == 3) := by simp [List.filter_cons, hk]
      have g4 : (c :: cs).filter (fun a => key a == 4) =
          cs.filter (fun a => key a == 4) := by simp [List.filter_cons, hk]
      have g5 : (c :: cs).filter (fun a => key a == 5) =
          cs.filter (fun a => key a == 5) := by simp [List.filter_cons, hk]
      rw [hnil 1 (by omega)] at ihe
      simp only [List.nil_append] at ihe
      rw [g1, g2, g3, g4, g5]
      simp only [List.nil_append, List.cons_append]
      rw [ihe]
    · have g1 : (c :: cs).filter (fun a => key a == 1) = [] := by
        rw [List.filter_cons,
          if_neg (by simp [hk] : ¬ ((key c == 1) = true))]
        exact hnil 1 (by omega)
      have g2 : (c :: cs).filter (fun a => key a == 2) = [] := by
        rw [List.filter_cons,
          if_neg (by simp [hk] : ¬ ((key c == 2) = true))]
        exact hnil 2 (by omega)
      have g3 : (c :: cs).filter (fun a => key a == 3) =
          c :: cs.filter (fun a => key a == 3) := by simp [List.filter_cons, hk]
      have g4 : (c :: cs).filter (fun a => key a == 4) =
          cs.filter (fun a => key a == 4) := by simp [List.filter_cons, hk]
      have g5 : (c :: cs).filter (fun a => key a == 5) =
          cs.filter (fun a => key a == 5) := by simp [List.filter_cons, hk]
      rw [hnil 1 (by omega), hnil 2 (by omega)] at ihe
      simp only [List.nil_append] at ihe
      rw [g1, g2, g3, g4, g5]
      simp only [List.nil_append, List.cons_append]
      rw [ihe]
    · have g1 : (c :: cs).filter (fun a => key a == 1) = [] := by
        rw [List.filter_cons,
          if_neg (by simp [hk] : ¬ ((key c == 1) = true))]
        exact hnil 1 (by omega)
      have g2 : (c :: cs).filter (fun a => key a == 2) = [] := by
        rw [List.filter_cons,
          if_neg (by simp [hk] : ¬ ((key c == 2) = true))]
        exact hnil 2 (by omega)
      have g3 : (c :: cs).filter (fun a => key a == 3) = [] := by
        rw [List.filter_cons,
          if_neg (by simp [hk] : ¬ ((key c == 3) = true))]
        exact hnil 3 (by omega)
      have g4 : (c :: cs).filter (fun a => key a == 4) =
          c :: cs.filter (fun a => key a == 4) := by simp [List.filter_cons, hk]
      have g5 : (c :: cs).filter (fun a => key a == 5) =
          cs.filter (fun a => key a == 5) := by simp [List.filter_cons, hk]
      rw [hnil 1 (by omega), hnil 2 (by omega), hnil 3 (by omega)] at ihe
      simp only [List.nil_append] at ihe
      rw [g1, g2, g3, g4, g5]
      simp only [List.nil_append, List.cons_append]
      rw [ihe]
    · have g1 : (c :: cs).filter (fun a => key a == 1) = [] := by
        rw [List.filter_cons,
          if_neg (by simp [hk] : ¬ ((key c == 1) = true))]
        exact hnil 1 (by omega)
      have g2 : (c :: cs).filter (fun a => key a == 2) = [] := by
        rw [List.filter_cons,
          if_neg (by simp [hk] : ¬ ((key c == 2) = true))]
        exact hnil 2 (by omega)
      have g3 : (c :: cs).filter (fun a => key a == 3) = [] := by
        rw [List.filter_cons,
          if_neg (by simp [hk] : ¬ ((key c == 3) = true))]
        exact hnil 3 (by omega)
      have g4 : (c :: cs).filter (fun a => key a == 4) = [] := by
        rw [List.filter_cons,
          if_neg (by simp [hk] : ¬ ((key c == 4) = true))]
        exact hnil 4 (by omega)
      have g5 : (c :: cs).filter (fun a => key a == 5) =
          c :: cs.filter (fun a => key a == 5) := by simp [List.filter_cons, hk]
      rw [hnil 1 (by omega), hnil 2 (by omega), hnil 3 (by omega),
        hnil 4 (by omega)] at ihe
      simp only [List.nil_append] at ihe
      rw [g1, g2, g3, g4, g5]
      simp only [List.nil_append, List.cons_append]
      rw [ihe]

/-- The head surviving a `dropWhile` falsifies the predicate. -/
theorem dropWhile_head_not (p : α → Bool) (m : List α) (a : α)
    (h : (m.dropWhile p).head? = some a) : p a = false := by
  induction m with
  | nil => simp [List.dropWhile] at h
  | cons x xs ih =>
    by_cases hx : p x = true
    · rw [List.dropWhile_cons, if_pos hx] at h
      exact ih h
    · rw [List.dropWhile_cons, if_neg hx] at h
      simp only [List.head?_cons, Option.some.injEq] at h
      rw [← h]
      simpa using hx

/-- `rstrip('/')` leaves no trailing slash. -/
theorem rstripSlash_no_trailing (b : String) :
    (rstripSlash b).data.getLast? ≠ some '/' := by
  intro h
  unfold rstripSlash at h
  rw [List.getLast?_reverse] at h
  have := dropWhile_head_not (fun c => c == '/') b.data.reverse '/' h
  simp at this

/-- A string starting with `/` has `'/'` as its first character. -/
theorem startsWith_slash_shape (p : String) (h : pyStartsWith p "/" = true) :
    ∃ rest, p.data = '/' :: rest := by
  unfold pyStartsWith at h
  cases hd : p.data with
  | nil => rw [hd] at h; simp [List.isPrefixOf] at h
  | cons c rest =>
    rw [hd] at h
    have h2 : (('/' == c) && List.isPrefixOf [] rest) = true := h
    simp only [List.isPrefixOf, Bool.and_true] at h2
    have : '/' = c := by
      have := h2
      simp at this
      exact this
    exact ⟨rest, by rw [← this]⟩

/-- A string starting with `/` does not start with `http`. -/
theorem startsWith_http_of_slash (p : String) (h : pyStartsWith p "/" = true) :
    pyStartsWith p "http" = false := by
  obtain ⟨rest, hd⟩ := startsWith_slash_shape p h
  unfold pyStartsWith
  rw [hd]
  rfl

/-- A string with an `http://` or `https://` scheme starts with `http`. -/
theorem startsWith_http_of_scheme (p : String)
    (h : pyStartsWith p "http://" = true ∨ pyStartsWith p "https://" = true) :
    pyStartsWith p "http" = true := by
  unfold pyStartsWith at *
  rcases h with h | h
  · have hp := List.isPrefixOf_iff_prefix.mp h
    refine List.isPrefixOf_iff_prefix.mpr ?_
    exact List.IsPrefix.trans ⟨"://".data, rfl⟩ hp
  · have hp := List.isPrefixOf_iff_prefix.mp h
    refine List.isPrefixOf_iff_prefix.mpr ?_
    exact List.IsPrefix.trans ⟨"s://".data, rfl⟩ hp

/-- The severity rank of a finding context (its `severity` field is the
string already normalised by `_build_finding_context`). -/
def ctxRank (c : FindingContext) : Nat := severityRank c.severity

/-- The URL-resolution rule exactly as the specification words it: an
`http`/`https` scheme verbatim, a leading path separator joined onto the
base origin, anything else unchanged (refinement reference for C7). -/
def claimResolveUrl (baseUrl rawUrl : String) : String :=
  if pyStartsWith rawUrl "http://" || pyStartsWith rawUrl "https://" then rawUrl
  else if pyStartsWith rawUrl "/" then rstripSlash baseUrl ++ rawUrl
  else rawUrl

/-! ## Claim theorems -/

/-- C1: `build_context` fails with the NotFound condition exactly for an
absent report, and the claim says no other exception ever propagates.
The code refutes the second half: a fetched report whose finding carries
`affectedAssetsJson` decoding to the JSON scalar `5` with no stored
asset count makes line 477 evaluate `len(5)`, so `build_context` raises
`TypeError` — a hard failure other than NotFound.  A report whose
findings are well-formed still builds. -/
theorem C1_notfound_and_len_typeerror :
    buildContext testEnv "r1" Option.none = .error "Report not found: r1" ∧
    buildContext testEnv "r1" (some (testReport [badAssetsFinding])) =
      .error "TypeError: object has no len()" ∧
    (buildContext testEnv "r1"
      (some (testReport [testFinding "f" (some "HIGH")]))).isOk = true :=
  ⟨rfl, rfl, rfl⟩

/-- C2: `build_context` re-sorts the fetched findings by the explicit
severity rank map (`CRITICAL=1 … INFO=5`, severity uppercased first so
comparison is case-insensitive, anything else ranked 99 and hence sorted
last), the sort is a stable permutation (each rank's subsequence keeps
its fetch order), and every successful build's findings are exactly the
enumerated contexts of that sorted list. -/
theorem C2_sort_rank_stable :
    (severityRank "CRITICAL" = 1 ∧ severityRank "HIGH" = 2 ∧
      severityRank "MEDIUM" = 3 ∧ severityRank "LOW" = 4 ∧
      severityRank "INFO" = 5) ∧
    (∀ s : String,
      s ≠ "CRITICAL" → s ≠ "HIGH" → s ≠ "MEDIUM" → s ≠ "LOW" → s ≠ "INFO" →
      severityRank s = 99) ∧
    (∀ f : Finding, findingRank f = severityRank (pyUpper (f.severity.getD ""))) ∧
    (∀ l : List Finding, List.Perm (sortFindings l) l) ∧
    (∀ l : List Finding,
      (sortFindings l).Pairwise (fun a b => findingRank a ≤ findingRank b)) ∧
    (∀ (l : List Finding) (n : Nat),
      (sortFindings l).filter (fun f => findingRank f == n) =
        l.filter (fun f => findingRank f == n)) ∧
    (∀ (env : Env) (rid : String) (r : Report) (ctx : ReportContext),
      buildContext env rid (some r) = .ok ctx →
      buildFindingContexts env (sortFindings r.project.findings) =
        .ok ctx.findings) := by
  refine ⟨⟨rfl, rfl, rfl, rfl, rfl⟩, ?_, fun f => rfl,
    fun l => sortKeyed_perm findingRank l,
    fun l => sortKeyed_pairwise findingRank l,
    fun l n => sortKeyed_filter findingRank l n, ?_⟩
  · intro s h1 h2 h3 h4 h5
    simp [severityRank, h1, h2, h3, h4, h5]
  · intro env rid r ctx h
    simp only [buildContext] at h
    cases hb : buildFindingContexts env (sortFindings r.project.findings) with
    | error e =>
      rw [hb] at h
      simp at h
    | ok cs =>
      rw [hb] at h
      simp only [Except.ok.injEq] at h
      rw [← h]

/-- Witness for C2 at a concrete input: an unmapped severity ranks 99. -/
theorem C2_witness : severityRank "BANANA" = 99 :=
  C2_sort_rank_stable.2.1 "BANANA" (by decide) (by decide) (by decide)
    (by decide) (by decide)

/-- C3: the risk level rules are evaluated in order with the first match
winning, and on the literal finding set `{HIGH, LOW, LOW, INFO}` the
weighted sum is 9 of a maximum 40, the risk score is 22.5, and the HIGH
presence forces the level to "High" despite the low score. -/
theorem C3_risk_rules_and_example :
    (∀ l : List Finding,
      (0 < countKey l "CRITICAL" ∨ 70 ≤ riskScore l →
        (calculateStats l).risk_level = "Critical") ∧
      (countKey l "CRITICAL" = 0 → riskScore l < 70 →
        0 < countKey l "HIGH" ∨ 50 ≤ riskScore l →
        (calculateStats l).risk_level = "High") ∧
      (countKey l "CRITICAL" = 0 → riskScore l < 70 →
        countKey l "HIGH" = 0 → riskScore l < 50 →
        0 < countKey l "MEDIUM" ∨ 25 ≤ riskScore l →
        (calculateStats l).risk_level = "Medium") ∧
      (countKey l "CRITICAL" = 0 → riskScore l < 70 →
        countKey l "HIGH" = 0 → riskScore l < 50 →
        countKey l "MEDIUM" = 0 → riskScore l < 25 →
        (calculateStats l).risk_level = "Low")) ∧
    weightedSum exampleFindings = 9 ∧
    exampleFindings.length = 4 ∧
    (calculateStats exampleFindings).risk_score = 45 / 2 ∧
    (calculateStats exampleFindings).risk_level = "High" := by
  constructor
  · intro l
    refine ⟨?_, ?_, ?_, ?_⟩
    · intro h
      show riskLevel l = "Critical"
      unfold riskLevel
      rw [if_pos h]
    · intro hC h70 h
      have hn1 : ¬ (0 < countKey l "CRITICAL" ∨ 70 ≤ riskScore l) := by
        push_neg
        exact ⟨by omega, h70⟩
      show riskLevel l = "High"
      unfold riskLevel
      rw [if_neg hn1, if_pos h]
    · intro hC h70 hH h50 h
      have hn1 : ¬ (0 < countKey l "CRITICAL" ∨ 70 ≤ riskScore l) := by
        push_neg
        exact ⟨by omega, h70⟩
      have hn2 : ¬ (0 < countKey l "HIGH" ∨ 50 ≤ riskScore l) := by
        push_neg
        exact ⟨by omega, h50⟩
      show riskLevel l = "Medium"
      unfold riskLevel
      rw [if_neg hn1, if_neg hn2, if_pos h]
    · intro hC h70 hH h50 hM h25
      have hn1 : ¬ (0 < countKey l "CRITICAL" ∨ 70 ≤ riskScore l) := by
        push_neg
        exact ⟨by omega, h70⟩
      have hn2 : ¬ (0 < countKey l "HIGH" ∨ 50 ≤ riskScore l) := by
        push_neg
        exact ⟨by omega, h50⟩
      have hn3 : ¬ (0 < countKey l "MEDIUM" ∨ 25 ≤ riskScore l) := by
        push_neg
        exact ⟨by omega, h25⟩
      show riskLevel l = "Low"
      unfold riskLevel
      rw [if_neg hn1, if_neg hn2, if_neg hn3]
  · have hscore : riskScore exampleFindings = 45 / 2 := by
      have hw : weightedSum exampleFindings = 9 := rfl
      have hl : exampleFindings.length = 4 := rfl
      unfold riskScore
      rw [hw, hl]
      norm_num
      rw [pyRound1_eq_of_int _ 225 (by norm_num)]
      norm_num
    refine ⟨rfl, rfl, hscore, ?_⟩
    have hC : countKey exampleFindings "CRITICAL" = 0 := rfl
    have hH : countKey exampleFindings "HIGH" = 1 := rfl
    have hn1 : ¬ (0 < countKey exampleFindings "CRITICAL" ∨
        70 ≤ riskScore exampleFindings) := by
      rw [hC, hscore]
      norm_num
    show riskLevel exampleFindings = "High"
    unfold riskLevel
    rw [if_neg hn1, if_pos (Or.inl (by rw [hH]; norm_num))]

/-- Witness for C3 at a concrete input: one CRITICAL finding triggers
the first rule. -/
theorem C3_witness :
    (calculateStats [testFinding "c" (some "CRITICAL")]).risk_level =
      "Critical" :=
  (C3_risk_rules_and_example.1 [testFinding "c" (some "CRITICAL")]).1
    (Or.inl (by decide))

/-- C4 counterexample: for the single finding of unrecognised severity
"BANANA", the five bucket counts sum to 0 while `total_findings` is 1,
yet the finding still appears in the sorted sequence. -/
theorem C4_counterexample :
    (calculateStats [testFinding "b1" (some "BANANA")]).total_findings = 1 ∧
    (calculateStats [testFinding "b1" (some "BANANA")]).critical_count +
      (calculateStats [testFinding "b1" (some "BANANA")]).high_count +
      (calculateStats [testFinding "b1" (some "BANANA")]).medium_count +
      (calculateStats [testFinding "b1" (some "BANANA")]).low_count +
      (calculateStats [testFinding "b1" (some "BANANA")]).info_count = 0 ∧
    (0 : Nat) ≠ 1 ∧
    (sortFindings [testFinding "b1" (some "BANANA")]).map (fun f => f.id) =
      ["b1"] :=
  ⟨rfl, rfl, by decide, rfl⟩

/-- C4 amended: the five canonical bucket counts sum to the total minus
the number of findings whose bucket key is unrecognised — those findings
inflate no bucket, but still appear in the sorted sequence, which is a
permutation of the fetched list. -/
theorem C4_bucket_sum :
    ∀ l : List Finding,
      (calculateStats l).critical_count + (calculateStats l).high_count +
        (calculateStats l).medium_count + (calculateStats l).low_count +
        (calculateStats l).info_count +
        (l.filter (fun f => !(isCanonicalKey (statsKey f)))).length =
        (calculateStats l).total_findings ∧
      List.Perm (sortFindings l) l :=
  fun l => ⟨countKey_partition l, sortKeyed_perm findingRank l⟩

/-- C5 counterexample: a finding of unrecognised severity "BANANA"
appears in the sorted findings sequence but in none of the five buckets,
so the bucket concatenation misses its identifier. -/
theorem C5_counterexample :
    (buildFindingContexts testEnv
        (sortFindings [testFinding "b1" (some "BANANA")])).map
        (fun cs =>
          ((groupedConcat (groupFindingsBySeverity cs)).map (fun c => c.id),
           cs.map (fun c => c.id)))
      = .ok ([], ["b1"]) ∧
    ([] : List String) ≠ ["b1"] :=
  ⟨rfl, by decide⟩

/-- C5 amended: for a finding-context sequence sorted by severity rank
(as `build_context` produces) in which every severity is one of the five
canonical values, concatenating the buckets in the fixed order
`[critical, high, medium, low, info]` reproduces exactly the sequence —
and hence its identifiers, with none missing and none duplicated. -/
theorem C5_concat_buckets :
    ∀ cs : List FindingContext,
      cs.Pairwise (fun a b => ctxRank a ≤ ctxRank b) →
      (∀ c ∈ cs, c.severity = "CRITICAL" ∨ c.severity = "HIGH" ∨
        c.severity = "MEDIUM" ∨ c.severity = "LOW" ∨ c.severity = "INFO") →
      groupedConcat (groupFindingsBySeverity cs) = cs ∧
      (groupedConcat (groupFindingsBySeverity cs)).map (fun c => c.id) =
        cs.map (fun c => c.id) := by
  intro cs hs hcanon
  have hpt : ∀ c ∈ cs,
      ((groupKey c == "critical") = (ctxRank c == 1)) ∧
      ((groupKey c == "high") = (ctxRank c == 2)) ∧
      ((groupKey c == "medium") = (ctxRank c == 3)) ∧
      ((groupKey c == "low") = (ctxRank c == 4)) ∧
      ((groupKey c == "info") = (ctxRank c == 5)) := by
    intro c hc
    rcases hcanon c hc with h | h | h | h | h <;>
      refine ⟨?_, ?_, ?_, ?_, ?_⟩ <;>
      simp only [groupKey, ctxRank, h] <;> decide
  have e1 : cs.filter (fun c => groupKey c == "critical") =
      cs.filter (fun c => ctxRank c == 1) :=
    List.filter_congr (fun c hc => (hpt c hc).1)
  have e2 : cs.filter (fun c => groupKey c == "high") =
      cs.filter (fun c => ctxRank c == 2) :=
    List.filter_congr (fun c hc => (hpt c hc).2.1)
  have e3 : cs.filter (fun c => groupKey c == "medium") =
      cs.filter (fun c => ctxRank c == 3) :=
    List.filter_congr (fun c hc => (hpt c hc).2.2.1)
  have e4 : cs.filter (fun c => groupKey c == "low") =
      cs.filter (fun c => ctxRank c == 4) :=
    List.filter_congr (fun c hc => (hpt c hc).2.2.2.1)
  have e5 : cs.filter (fun c => groupKey c == "info") =
      cs.filter (fun c => ctxRank c == 5) :=
    List.filter_congr (fun c hc => (hpt c hc).2.2.2.2)
  have hranks : ∀ c ∈ cs, 1 ≤ ctxRank c ∧ ctxRank c ≤ 5 := by
    intro c hc
    rcases hcanon c hc with h | h | h | h | h <;>
      simp only [ctxRank, h] <;> decide
  have hmain : groupedConcat (groupFindingsBySeverity cs) = cs := by
    show cs.filter (fun c => groupKey c == "critical") ++
        cs.filter (fun c => groupKey c == "high") ++
        cs.filter (fun c => groupKey c == "medium") ++
        cs.filter (fun c => groupKey c == "low") ++
        cs.filter (fun c => groupKey c == "info") = cs
    rw [e1, e2, e3, e4, e5]
    exact concat_filters_of_sorted ctxRank cs hs hranks
  exact ⟨hmain, by rw [hmain]⟩

/-- Witness for C5 at a concrete input: a single LOW context is its own
bucket concatenation. -/
theorem C5_witness :
    groupedConcat (groupFindingsBySeverity [testCtx "x" "LOW"]) =
      [testCtx "x" "LOW"] :=
  (C5_concat_buckets [testCtx "x" "LOW"] (by simp)
    (by
      intro c hc
      rcases List.mem_singleton.mp hc with rfl
      right; right; right; left; rfl)).1

/-- C6 counterexample: the scope string `"123"` JSON-decodes to the
integer 123 and the code keeps that non-list instead of falling back to
splitting (which would give `["123"]`); and the compliance fallback
splits on commas only, so `"a\nb"` stays one segment, not the claim's
newline-then-comma split `["a", "b"]`. -/
theorem C6_counterexample :
    normalizeScope (.str "123") = .int 123 ∧
    splitScopeLegacy "123" = ["123"] ∧
    PyVal.int 123 ≠ PyVal.list [PyVal.str "123"] ∧
    normalizeCompliance (.str "a\nb") = .list [.str "a\nb"] ∧
    splitScopeLegacy "a\nb" = ["a", "b"] ∧
    PyVal.list [PyVal.str "a\nb"] ≠ PyVal.list [PyVal.str "a", PyVal.str "b"] :=
  ⟨rfl, rfl, by simp, rfl, rfl, by simp⟩

/-- C6 amended: list-field normalisation of `scope` and
`compliance_frameworks` returns a structured (non-string) value as-is;
a string is JSON-decoded and the decoded value is kept whatever it is
(list or not); only a failed decode falls back to splitting — newline
then comma for scope, comma only for compliance — trimming whitespace
and dropping empty segments; a falsy value yields an empty list; and the
normalisers are total, so they never raise. -/
theorem C6_normalize_list_fields :
    ∀ raw : PyVal,
      (pyTruthy raw = false →
        normalizeScope raw = .list [] ∧ normalizeCompliance raw = .list []) ∧
      (∀ s v, raw = .str s → pyTruthy raw = true → jsonLoads s = some v →
        normalizeScope raw = v ∧ normalizeCompliance raw = v) ∧
      (∀ s, raw = .str s → pyTruthy raw = true → jsonLoads s = Option.none →
        normalizeScope raw = .list ((splitScopeLegacy s).map .str) ∧
        normalizeCompliance raw = .list ((splitCommaStrip s).map .str)) ∧
      ((∀ s, raw ≠ .str s) → pyTruthy raw = true →
        normalizeScope raw = raw ∧ normalizeCompliance raw = raw) := by
  intro raw
  refine ⟨?_, ?_, ?_, ?_⟩
  · intro h
    constructor <;> simp [normalizeScope, normalizeCompliance, h]
  · intro s v hs ht hj
    subst hs
    constructor <;> simp [normalizeScope, normalizeCompliance, ht, hj]
  · intro s hs ht hj
    subst hs
    constructor <;> simp [normalizeScope, normalizeCompliance, ht, hj]
  · intro hns ht
    cases raw with
    | str s => exact absurd rfl (hns s)
    | none => simp [pyTruthy] at ht
    | bool b => constructor <;> simp [normalizeScope, normalizeCompliance, ht]
    | int n => constructor <;> simp [normalizeScope, normalizeCompliance, ht]
    | float q => constructor <;> simp [normalizeScope, normalizeCompliance, ht]
    | list xs => constructor <;> simp [normalizeScope, normalizeCompliance, ht]
    | dict kvs => constructor <;> simp [normalizeScope, normalizeCompliance, ht]

/-- Witness for C6 at a concrete input: a JSON-array scope string decodes
to that list. -/
theorem C6_witness :
    normalizeScope (.str "[\"a\", \"b\"]") = .list [.str "a", .str "b"] :=
  ((C6_normalize_list_fields (.str "[\"a\", \"b\"]")).2.1 "[\"a\", \"b\"]"
      (.list [.str "a", .str "b"]) rfl rfl rfl).1

/-- C7: evidence URL resolution agrees with the specification's case
analysis on every base and path; a path with a leading separator is
appended to the base stripped of all trailing slashes (so the base
contributes no separator and no double slash arises even when it ends in
`/`); the literal examples resolve as stated; and an absent caption
defaults to the literal "Evidence". -/
theorem C7_url_resolution :
    (∀ b p : String, resolveUrl b p = claimResolveUrl b p) ∧
    (∀ b p : String, pyStartsWith p "/" = true →
      resolveUrl b p = rstripSlash b ++ p) ∧
    (∀ b : String, (rstripSlash b).data.getLast? ≠ some '/') ∧
    resolveUrl "http://api.example.com" "/uploads/x.png" =
      "http://api.example.com/uploads/x.png" ∧
    resolveUrl "http://api.example.com/" "/uploads/x.png" =
      "http://api.example.com/uploads/x.png" ∧
    resolveUrl "http://api.example.com" "https://cdn.example.com/x.png" =
      "https://cdn.example.com/x.png" ∧
    (∀ (b : String) (e : Evidence), e.caption = Option.none →
      (resolveEvidence b e).caption = "Evidence") := by
  have hslash : ∀ p : String, pyStartsWith p "/" = true →
      pyStartsWith p "http://" = false ∧ pyStartsWith p "https://" = false := by
    intro p h1
    have hh := startsWith_http_of_slash p h1
    constructor
    · cases hsch : pyStartsWith p "http://" with
      | false => rfl
      | true =>
        have ht := startsWith_http_of_scheme p (Or.inl hsch)
        rw [hh] at ht
        exact Bool.noConfusion ht
    · cases hsch : pyStartsWith p "https://" with
      | false => rfl
      | true =>
        have ht := startsWith_http_of_scheme p (Or.inr hsch)
        rw [hh] at ht
        exact Bool.noConfusion ht
  refine ⟨?_, ?_, rstripSlash_no_trailing, rfl, rfl, rfl, ?_⟩
  · intro b p
    by_cases h1 : pyStartsWith p "/" = true
    · have hh := startsWith_http_of_slash p h1
      obtain ⟨h2, h3⟩ := hslash p h1
      simp [resolveUrl, claimResolveUrl, hh, h1, h2, h3]
    · have h1f : pyStartsWith p "/" = false := by
        cases hx : pyStartsWith p "/" with
        | false => rfl
        | true => exact absurd hx h1
      by_cases h2 : pyStartsWith p "http" = true
      · simp [resolveUrl, claimResolveUrl, h2, h1f]
      · have h2f : pyStartsWith p "http" = false := by
          cases hx : pyStartsWith p "http" with
          | false => rfl
          | true => exact absurd hx h2
        have h3 : pyStartsWith p "http://" = false := by
          cases hsch : pyStartsWith p "http://" with
          | false => rfl
          | true =>
            have ht := startsWith_http_of_scheme p (Or.inl hsch)
            rw [h2f] at ht
            exact Bool.noConfusion ht
        have h4 : pyStartsWith p "https://" = false := by
          cases hsch : pyStartsWith p "https://" with
          | false => rfl
          | true =>
            have ht := startsWith_http_of_scheme p (Or.inr hsch)
            rw [h2f] at ht
            exact Bool.noConfusion ht
        simp [resolveUrl, claimResolveUrl, h1f, h2f, h3, h4]
  · intro b p h1
    have hh := startsWith_http_of_slash p h1
    simp [resolveUrl, hh, h1]
  · intro b e h
    simp [resolveEvidence, pyOrStr, h]

/-- Witness for C7 at a concrete input: a trailing-slash base joined
with a leading-separator path. -/
theorem C7_witness :
    resolveUrl "http://api.example.com/" "/uploads/x.png" =
      rstripSlash "http://api.example.com/" ++ "/uploads/x.png" :=
  C7_url_resolution.2.1 "http://api.example.com/" "/uploads/x.png" rfl

/-- C8 counterexample: `INFORMATIONAL` is missing from the sort's rank
map, so its rank is 99 rather than the claimed 5; sorting the fetch
order `[INFORMATIONAL, INFO]` therefore swaps the two, while a rank-5
stable sort would have kept it. -/
theorem C8_counterexample :
    findingRank (testFinding "a" (some "INFORMATIONAL")) = 99 ∧
    (99 : Nat) ≠ 5 ∧
    (sortFindings [testFinding "a" (some "INFORMATIONAL"),
        testFinding "b" (some "INFO")]).map (fun f => f.id) = ["b", "a"] ∧
    (["b", "a"] : List String) ≠ ["a", "b"] :=
  ⟨rfl, by decide, rfl, by decide⟩

/-- C8 amended: `INFORMATIONAL` (any case) is an alias of `INFO` for the
stats counting and the severity grouping, but the severity sort gives it
rank 99, ordering it after all five recognised severities, not rank 5. -/
theorem C8_informational_alias :
    ∀ s : String, pyUpper s = "INFORMATIONAL" →
      (∀ f : Finding, f.severity = some s →
        statsKey f = "INFO" ∧ ctxSeverity f.severity = "INFORMATIONAL" ∧
        findingRank f = 99) ∧
      (∀ c : FindingContext, c.severity = "INFORMATIONAL" →
        groupKey c = "info") := by
  intro s hs
  have hne : s ≠ "" := by
    intro h
    rw [h] at hs
    exact absurd hs (by decide)
  constructor
  · intro f hf
    refine ⟨?_, ?_, ?_⟩
    · simp [statsKey, hf, hne, hs]
    · simp [ctxSeverity, hf, hne, hs]
    · unfold findingRank
      rw [hf]
      show severityRank (pyUpper s) = 99
      rw [hs]
      rfl
  · intro c hc
    unfold groupKey
    rw [hc]
    rfl

/-- Witness for C8 at a concrete input: lowercase `informational` counts
into the INFO bucket. -/
theorem C8_witness :
    statsKey (testFinding "x" (some "informational")) = "INFO" :=
  ((C8_informational_alias "informational" (by decide)).1
    (testFinding "x" (some "informational")) rfl).1

/-- C9: for every rich-text collaborator and payload: an empty payload
yields empty forms; a payload decoding to a mapping renders its
`executiveSummary` value through the adapter (empty if the key is
missing or falsy); every other decode outcome — invalid JSON or a
non-mapping decode — falls back to sanitizing/rendering the raw payload
wholesale; the embedding is total, so the fallback never raises.  Two
closed instances exercise both branches through the JSON model. -/
theorem C9_narrative_parsing :
    (∀ (rt : RichText) (payload : String),
      (payload = "" → parseNarrative rt payload = ("", "")) ∧
      (∀ m, payload ≠ "" → jsonLoads payload = some (.dict m) →
        parseNarrative rt payload =
          ((if pyTruthy (dictGet m "executiveSummary" (.str ""))
            then rt.to_html (dictGet m "executiveSummary" (.str "")) else ""),
           (if pyTruthy (dictGet m "executiveSummary" (.str ""))
            then rt.to_plain (dictGet m "executiveSummary" (.str "")) else ""))) ∧
      (payload ≠ "" → (∀ m, jsonLoads payload ≠ some (.dict m)) →
        parseNarrative rt payload =
          (rt.sanitize_html payload, rt.to_plain (.str payload)))) ∧
    parseNarrative testRich "\x7b\"executiveSummary\": \"hi\"\x7d" =
      ("hi", "hi") ∧
    parseNarrative testRich "not json" = ("not json", "not json") := by
  refine ⟨?_, rfl, rfl⟩
  intro rt payload
  refine ⟨?_, ?_, ?_⟩
  · intro h
    simp [parseNarrative, h]
  · intro m hne hm
    unfold parseNarrative
    rw [if_neg hne, hm]
  · intro hne hnm
    unfold parseNarrative
    rw [if_neg hne]
    cases hj : jsonLoads payload with
    | none => rfl
    | some v =>
      cases v with
      | dict m => exact absurd hj (hnm m)
      | none => rfl
      | bool b => rfl
      | int n => rfl
      | float q => rfl
      | str s => rfl
      | list xs => rfl

/-- Witness for C9 at a concrete input: the empty payload. -/
theorem C9_witness : parseNarrative testRich "" = ("", "") :=
  (C9_narrative_parsing.1 testRich "").1 rfl

/-- C10: a finding with severity None or "" is bucketed as MEDIUM by the
stats (contributing weight 4 to the weighted sum), its context reports
severity "MEDIUM", yet the sort ranks it 99, after every recognised
severity. -/
theorem C10_defaulted_severity :
    ∀ sev : Option String, (sev = Option.none ∨ sev = some "") →
    ∀ f : Finding, f.severity = sev →
      statsKey f = "MEDIUM" ∧
      ctxSeverity f.severity = "MEDIUM" ∧
      findingRank f = 99 ∧
      (∀ l : List Finding,
        countKey (l ++ [f]) "MEDIUM" = countKey l "MEDIUM" + 1 ∧
        weightedSum (l ++ [f]) = weightedSum l + 4) ∧
      (∀ g : Finding, findingRank g ≤ 5 → findingRank g < findingRank f) := by
  intro sev hsev f hf
  have hkey : statsKey f = "MEDIUM" := by
    rcases hsev with h | h <;> simp [statsKey, hf, h]
  have hctx : ctxSeverity f.severity = "MEDIUM" := by
    rcases hsev with h | h <;> simp [ctxSeverity, hf, h]
  have hrank : findingRank f = 99 := by
    rcases hsev with h | h <;> (unfold findingRank; rw [hf, h]; rfl)
  refine ⟨hkey, hctx, hrank, ?_, ?_⟩
  · intro l
    have hcount : ∀ k : String, countKey (l ++ [f]) k =
        countKey l k + (if statsKey f = k then 1 else 0) := by
      intro k
      rw [countKey, countKey, List.filter_append, List.length_append]
      congr 1
      rw [List.filter_cons]
      by_cases h : statsKey f = k <;> simp [h]
    constructor
    · rw [hcount "MEDIUM", hkey]
      simp
    · unfold weightedSum
      rw [hcount "CRITICAL", hcount "HIGH", hcount "MEDIUM", hcount "LOW",
        hcount "INFO", hkey]
      simp
      omega
  · intro g hg
    rw [hrank]
    omega

/-- Witness for C10 at a concrete input: the None severity. -/
theorem C10_witness :
    statsKey (testFinding "n" Option.none) = "MEDIUM" ∧
    findingRank (testFinding "n" Option.none) = 99 := by
  have h := C10_defaulted_severity Option.none (Or.inl rfl)
    (testFinding "n" Option.none) rfl
  exact ⟨h.1, h.2.2.1⟩

end ReportData
